import Mathlib

/-!
Shallow embedding of the webhook / event-delivery subsystem of the repository:
`src/webhooks.py` (EventType, WebhookEvent, Webhook, WebhookDelivery,
WebhookManager) and `src/advanced_pro.py` (CircuitBreaker, RateLimiter).

Modelling conventions:
* Python `datetime` timestamps are modelled as numbers: `Nat` seconds for the
  webhook manager (it only ever stores `now` and `now + 5 minutes`), and `ℚ`
  seconds for the circuit breaker and the rate limiter (whose arithmetic
  divides and compares elapsed times).  Each operation that calls
  `datetime.now()` takes the current time as an explicit argument.
* `uuid.uuid4()` default ids/secrets are taken as explicit arguments.
* The outbound HTTP world is an environment `resp : Nat → AttemptResult`
  giving, for each attempt index, either a status code or a raised exception
  (`httpx` errors are caught by the `except Exception` handler in the source).
* The delivery loop additionally records the outbound calls it performs and
  the back-off delays it sleeps, so that theorems can speak about what was
  sent on the wire and how retries were spaced.
-/

namespace AgentAI

/-- `EventType` enum of `src/webhooks.py`. -/
inductive EventType where
  | plan_created
  | plan_started
  | plan_completed
  | plan_failed
  | task_started
  | task_completed
  | task_failed
  | conversation_message
deriving DecidableEq, Repr

/-- The `.value` string of each enum member. -/
def EventType.value : EventType → String
  | .plan_created => "plan.created"
  | .plan_started => "plan.started"
  | .plan_completed => "plan.completed"
  | .plan_failed => "plan.failed"
  | .task_started => "task.started"
  | .task_completed => "task.completed"
  | .task_failed => "task.failed"
  | .conversation_message => "conversation.message"

/-- A JSON scalar, enough to populate `data` / `metadata` dictionaries. -/
inductive JValue where
  | s (v : String)
  | n (v : Int)
  | b (v : Bool)
  | null
deriving DecidableEq, Repr

/-- A JSON object, as an association list. -/
abbrev JDict := List (String × JValue)

/-- `WebhookEvent` dataclass. -/
structure WebhookEvent where
  id : String
  type : EventType
  timestamp : String
  data : JDict
  metadata : JDict
deriving DecidableEq, Repr

/-- The dictionary produced by `WebhookEvent.to_dict` (the serialized body of
an outbound call). -/
structure EventDict where
  id : String
  type : String
  timestamp : String
  data : JDict
  metadata : JDict
deriving DecidableEq, Repr

/-- `WebhookEvent.to_dict`. -/
def WebhookEvent.to_dict (e : WebhookEvent) : EventDict :=
  { id := e.id
    type := e.type.value
    timestamp := e.timestamp
    data := e.data
    metadata := e.metadata }

/-- `Webhook` dataclass (a subscription). -/
structure Webhook where
  id : String
  url : String
  event_types : List EventType
  active : Bool := true
  created_at : String := ""
  secret : String
  retry_count : Nat := 3
  timeout_seconds : Nat := 30
deriving DecidableEq, Repr

/-- `WebhookDelivery` dataclass.  Timestamps (`next_retry`, `completed_at`)
are modelled as `Nat` seconds. -/
structure WebhookDelivery where
  id : String := ""
  webhook_id : String := ""
  event_id : String := ""
  status_code : Option Nat := none
  error : Option String := none
  attempts : Nat := 0
  next_retry : Option Nat := none
  completed_at : Option Nat := none
deriving DecidableEq, Repr

/-- Outcome of one outbound `client.post`: either an HTTP response with a
status code, or a raised exception with message `msg`. -/
inductive AttemptResult where
  | response (status : Nat)
  | exception (msg : String)
deriving DecidableEq, Repr

/-- The headers sent by `_deliver_webhook` on every attempt. -/
def requestHeaders (w : Webhook) (e : WebhookEvent) : List (String × String) :=
  [("X-Webhook-ID", w.id),
   ("X-Event-ID", e.id),
   ("X-Event-Type", e.type.value),
   ("X-Secret", w.secret)]

/-- One outbound HTTP call as performed by `_deliver_webhook`:
`client.post(webhook.url, json=event.to_dict(), timeout=..., headers=...)`. -/
structure OutboundCall where
  url : String
  body : EventDict
  timeout : Nat
  headers : List (String × String)
deriving DecidableEq, Repr

/-- Result of running the `_deliver_webhook` attempt loop: the (mutated)
delivery record, the returned boolean, the outbound calls actually performed,
and the back-off delays slept between attempts (in seconds, in order). -/
structure DeliverResult where
  delivery : WebhookDelivery
  success : Bool
  calls : List OutboundCall
  delays : List Nat
deriving DecidableEq, Repr

/-- The body of `for attempt in range(webhook.retry_count)` in
`WebhookManager._deliver_webhook`.  `fuel` is the number of loop iterations
still available (`retry_count - attempt`); the `continue` conditions are the
source's literal `attempt < webhook.retry_count - 1`. -/
def deliverGo (w : Webhook) (e : WebhookEvent) (resp : Nat → AttemptResult)
    (d : WebhookDelivery) (attempt : Nat) : Nat → DeliverResult
  | 0 => ⟨d, false, [], []⟩
  | fuel + 1 =>
    let d := { d with attempts := attempt + 1 }
    let call : OutboundCall := ⟨w.url, e.to_dict, w.timeout_seconds, requestHeaders w e⟩
    match resp attempt with
    | .response s =>
      let d := { d with status_code := some s }
      if 200 ≤ s ∧ s < 300 then
        ⟨d, true, [call], []⟩
      else if 500 ≤ s ∧ attempt < w.retry_count - 1 then
        let rest := deliverGo w e resp d (attempt + 1) fuel
        ⟨rest.delivery, rest.success, call :: rest.calls, 2 ^ attempt :: rest.delays⟩
      else
        ⟨{ d with error := some ("HTTP " ++ toString s) }, false, [call], []⟩
    | .exception msg =>
      let d := { d with error := some msg }
      if attempt < w.retry_count - 1 then
        let rest := deliverGo w e resp d (attempt + 1) fuel
        ⟨rest.delivery, rest.success, call :: rest.calls, 2 ^ attempt :: rest.delays⟩
      else
        ⟨d, false, [call], []⟩

/-- `WebhookManager._deliver_webhook`. -/
def deliverWebhook (w : Webhook) (e : WebhookEvent) (resp : Nat → AttemptResult)
    (d : WebhookDelivery) : DeliverResult :=
  deliverGo w e resp d 0 w.retry_count

/-- `WebhookManager` state: `webhooks` is the insertion-ordered dict
`id ↦ Webhook`, `deliveries` the list of all delivery records. -/
structure WebhookManager where
  webhooks : List (String × Webhook) := []
  deliveries : List WebhookDelivery := []
deriving DecidableEq, Repr

/-- Python-dict assignment `m[k] = v`: replace in place if the key exists,
else append (insertion order preserved). -/
def dictInsert (l : List (String × Webhook)) (k : String) (v : Webhook) :
    List (String × Webhook) :=
  if l.any (fun p => p.1 = k) then
    l.map (fun p => if p.1 = k then (k, v) else p)
  else l ++ [(k, v)]

/-- First-match lookup in an association list keyed by strings (Python
`d[k]` on a dict with unique keys). -/
def lookupKey {α : Type} : List (String × α) → String → Option α
  | [], _ => none
  | p :: rest, k => if p.1 = k then some p.2 else lookupKey rest k

/-- `WebhookManager.register_webhook`.  `freshId` and `defaultSecret` stand
for the `uuid.uuid4()` defaults, `created` for `datetime.now().isoformat()`.
No validation of `url` is performed by the source. -/
def registerWebhook (m : WebhookManager) (url : String) (event_types : List EventType)
    (secret : Option String) (freshId defaultSecret created : String) :
    Webhook × WebhookManager :=
  let webhook : Webhook :=
    { id := freshId
      url := url
      event_types := event_types
      active := true
      created_at := created
      secret := secret.getD defaultSecret
      retry_count := 3
      timeout_seconds := 30 }
  (webhook, { m with webhooks := dictInsert m.webhooks webhook.id webhook })

/-- `WebhookManager.unregister_webhook`. -/
def unregisterWebhook (m : WebhookManager) (webhook_id : String) :
    WebhookManager × Bool :=
  if m.webhooks.any (fun p => p.1 = webhook_id) then
    ({ m with webhooks := m.webhooks.filter (fun p => ¬ p.1 = webhook_id) }, true)
  else (m, false)

/-- One iteration of the `trigger_event` loop for webhook `w`: skip inactive
or uninterested webhooks, otherwise create a delivery record, run
`_deliver_webhook`, and stamp `completed_at` (success) or `next_retry`
(`now + 5 minutes`, failure).  `resp w.id` is the HTTP environment for this
webhook's endpoint. -/
def deliverOne (e : WebhookEvent) (resp : String → Nat → AttemptResult)
    (now : Nat) (w : Webhook) : Option WebhookDelivery :=
  if w.active = true ∧ e.type ∈ w.event_types then
    let d0 : WebhookDelivery := { webhook_id := w.id, event_id := e.id }
    let res := deliverWebhook w e (resp w.id) d0
    some (if res.success then { res.delivery with completed_at := some now }
          else { res.delivery with next_retry := some (now + 300) })
  else none

/-- `WebhookManager.trigger_event`: iterate the registered webhooks in
insertion order, deliver to each matching one, append each produced record to
`self.deliveries`, and return the produced records. -/
def triggerEvent (m : WebhookManager) (e : WebhookEvent)
    (resp : String → Nat → AttemptResult) (now : Nat) :
    WebhookManager × List WebhookDelivery :=
  let ds := (m.webhooks.map Prod.snd).filterMap (deliverOne e resp now)
  ({ m with deliveries := m.deliveries ++ ds }, ds)

/-- The dictionary returned by `WebhookManager.get_delivery_status`. -/
structure DeliveryStatus where
  webhook_id : String
  total_deliveries : Nat
  successful : Nat
  failed : Nat
  pending : Nat
  last_delivery : Option Nat
deriving DecidableEq, Repr

/-- `max(..., default=None)` over a list of timestamps. -/
def optionMax : List Nat → Option Nat
  | [] => none
  | t :: ts =>
    match optionMax ts with
    | none => some t
    | some u => some (max t u)

/-- `WebhookManager.get_delivery_status`. -/
def getDeliveryStatus (m : WebhookManager) (webhook_id : String) : DeliveryStatus :=
  let ds := m.deliveries.filter (fun d => d.webhook_id = webhook_id)
  { webhook_id := webhook_id
    total_deliveries := ds.length
    successful := (ds.filter (fun d => d.completed_at.isSome)).length
    failed := (ds.filter (fun d => d.error.isSome)).length
    pending := (ds.filter (fun d => d.next_retry.isSome)).length
    last_delivery := optionMax (ds.filterMap (fun d => d.completed_at)) }

/-- The matching rule of the `trigger_event` loop, as a query: the active
registered webhooks whose `event_types` contain the event's type, in
registration (insertion) order. -/
def matchingWebhooks (m : WebhookManager) (t : EventType) : List Webhook :=
  (m.webhooks.map Prod.snd).filter (fun w => decide (w.active = true ∧ t ∈ w.event_types))

/-! ### `src/advanced_pro.py`: `CircuitBreaker` -/

/-- `CircuitBreaker` of `src/advanced_pro.py`.  `state` is the literal string
the source uses (`"closed"`, `"open"`, `"half-open"`); times are `ℚ` seconds.
`expected_exception` defaults to `Exception`, which catches every failure, so
a call's outcome is modelled by a boolean (the wrapped function returned
normally, or raised). -/
structure CircuitBreaker where
  name : String
  failure_threshold : Nat := 5
  recovery_timeout : ℚ := 60
  failure_count : Nat := 0
  last_failure_time : Option ℚ := none
  state : String := "closed"
deriving DecidableEq, Repr

/-- `CircuitBreaker._should_attempt_reset`: true when `recovery_timeout`
seconds have elapsed since the last recorded failure. -/
def CircuitBreaker.shouldAttemptReset (b : CircuitBreaker) (now : ℚ) : Bool :=
  match b.last_failure_time with
  | none => false
  | some t => decide (b.recovery_timeout ≤ now - t)

/-- `CircuitBreaker._on_success`: reset the failure count and close. -/
def CircuitBreaker.onSuccess (b : CircuitBreaker) : CircuitBreaker :=
  { b with failure_count := 0, state := "closed" }

/-- `CircuitBreaker._on_failure`: count the failure, stamp its time, and open
once the threshold is reached. -/
def CircuitBreaker.onFailure (b : CircuitBreaker) (now : ℚ) : CircuitBreaker :=
  let b := { b with failure_count := b.failure_count + 1, last_failure_time := some now }
  if b.failure_threshold ≤ b.failure_count then { b with state := "open" } else b

/-- Outcome of `CircuitBreaker.call`: the call was denied (the breaker raised
`Circuit breaker is OPEN` without invoking the function), or the function ran
and returned, or the function ran and raised (the breaker records the failure
and re-raises). -/
inductive CallResult where
  | denied
  | succeeded
  | failed
deriving DecidableEq, Repr

/-- `CircuitBreaker.call`, with the wrapped function's behaviour given as
`funcSucceeds`. -/
def CircuitBreaker.call (b : CircuitBreaker) (now : ℚ) (funcSucceeds : Bool) :
    CircuitBreaker × CallResult :=
  let pre : Option CircuitBreaker :=
    if b.state = "open" then
      if b.shouldAttemptReset now then some { b with state := "half-open" } else none
    else some b
  match pre with
  | none => (b, .denied)
  | some b => if funcSucceeds then (b.onSuccess, .succeeded) else (b.onFailure now, .failed)

/-! ### `src/advanced_pro.py`: `RateLimiter` -/

/-- `RateLimiter` of `src/advanced_pro.py` (token bucket):
`rate` tokens per `period` seconds; `tokens` is a Python float, modelled
as `ℚ`. -/
structure RateLimiter where
  rate : Nat
  period : Nat := 60
  tokens : ℚ
  last_update : ℚ
deriving DecidableEq, Repr

/-- `RateLimiter.__init__`: a fresh bucket holds `rate` tokens. -/
def RateLimiter.init (rate period : Nat) (now : ℚ) : RateLimiter :=
  { rate := rate, period := period, tokens := rate, last_update := now }

/-- `RateLimiter._refill`: add `(elapsed / period) * rate` tokens, capped at
`rate`. -/
def RateLimiter.refill (l : RateLimiter) (now : ℚ) : RateLimiter :=
  let elapsed : ℚ := now - l.last_update
  let tokens_to_add : ℚ := (elapsed / (l.period : ℚ)) * (l.rate : ℚ)
  { l with tokens := min (l.rate : ℚ) (l.tokens + tokens_to_add), last_update := now }

/-- `RateLimiter.is_allowed`: refill, then consume one token if at least one
is available. -/
def RateLimiter.isAllowed (l : RateLimiter) (now : ℚ) : RateLimiter × Bool :=
  let l := l.refill now
  if 1 ≤ l.tokens then ({ l with tokens := l.tokens - 1 }, true) else (l, false)

/-- `k` consecutive `is_allowed` calls at time `now`, returning the final
limiter state and the list of answers in order. -/
def RateLimiter.run (l : RateLimiter) (now : ℚ) : Nat → RateLimiter × List Bool
  | 0 => (l, [])
  | k + 1 =>
    let (l', b) := l.isAllowed now
    let (l'', bs) := l'.run now k
    (l'', b :: bs)

/-! ### Spec-side definitions used only to state claims -/

/-- Split a character list at the first `"://"`, returning the scheme part
and the remainder. -/
def splitScheme : List Char → Option (List Char × List Char)
  | [] => none
  | ':' :: '/' :: '/' :: rest => some ([], rest)
  | c :: rest =>
    match splitScheme rest with
    | none => none
    | some (scheme, tail) => some (c :: scheme, tail)

/-- Modelled from the spec: a "well-formed absolute URL" (the condition under
which the spec's `register` is required to raise `InvalidTargetError`): a
non-empty alphabetic scheme, `"://"`, and a non-empty remainder.  The source
has no such check (and no `InvalidTargetError`); this definition exists only
to state the registration claim. -/
def specIsAbsoluteUrl (s : String) : Bool :=
  match splitScheme s.data with
  | none => false
  | some (scheme, rest) => ¬ scheme = [] ∧ scheme.all Char.isAlpha ∧ ¬ rest = []

/-! ### Auxiliary definitions for stating theorems -/

/-- The exponential back-off schedule slept by `_deliver_webhook` starting at
attempt index `a` for `r` retried attempts: `[2^a, 2^(a+1), …]`. -/
def backoffDelays : Nat → Nat → List Nat
  | _, 0 => []
  | a, r + 1 => 2 ^ a :: backoffDelays (a + 1) r

/-- Fold a sequence of failing calls (at the given times) through a circuit
breaker, keeping only the breaker state. -/
def failRun (b : CircuitBreaker) : List ℚ → CircuitBreaker
  | [] => b
  | t :: ts => failRun (b.call t false).1 ts

/-! ### Concrete fixtures for counterexamples and witnesses -/

/-- A concrete subscription (all dataclass defaults: active, 3 retries,
30 s timeout). -/
def exWebhook : Webhook :=
  { id := "wh1", url := "https://example.com/hook",
    event_types := [.task_completed], secret := "s" }

/-- A concrete event matching `exWebhook`. -/
def exEvent : WebhookEvent :=
  { id := "ev1", type := .task_completed, timestamp := "T", data := [], metadata := [] }

/-- A manager holding just `exWebhook`. -/
def exManager : WebhookManager := { webhooks := [("wh1", exWebhook)] }

/-- A fresh delivery record for `exWebhook` × `exEvent`. -/
def exDelivery : WebhookDelivery := { webhook_id := "wh1", event_id := "ev1" }

/-- An endpoint whose first attempt raises a connection error and whose
second attempt returns 200. -/
def exFlakyResp : String → Nat → AttemptResult :=
  fun _ i => if i = 0 then .exception "connection reset" else .response 200

/-- An endpoint that answers every attempt with HTTP 503. -/
def exResp503 : Nat → AttemptResult := fun _ => .response 503

/-- The delivery record `trigger_event` produces for `exFlakyResp` at time
1000: the first attempt's exception message is still in `error` although the
second attempt succeeded and stamped `completed_at`. -/
def exFlakyDelivery : WebhookDelivery :=
  { id := "", webhook_id := "wh1", event_id := "ev1", status_code := some 200,
    error := some "connection reset", attempts := 2, next_retry := none,
    completed_at := some 1000 }

/-- A circuit breaker for `exWebhook`'s endpoint that is OPEN and inside its
cool-down at time 10 (threshold 5 reached, last failure at time 0). -/
def exOpenBreaker : CircuitBreaker :=
  { name := "https://example.com/hook", failure_count := 5,
    last_failure_time := some 0, state := "open" }

/-! ## Lemmas about the delivery loop -/

theorem deliverGo_zero (w : Webhook) (e : WebhookEvent) (resp : Nat → AttemptResult)
    (d : WebhookDelivery) (attempt : Nat) :
    deliverGo w e resp d attempt 0 = ⟨d, false, [], []⟩ := rfl

theorem deliverGo_succ (w : Webhook) (e : WebhookEvent) (resp : Nat → AttemptResult)
    (d : WebhookDelivery) (attempt fuel : Nat) :
    deliverGo w e resp d attempt (fuel + 1) =
      (let d := { d with attempts := attempt + 1 }
       let call : OutboundCall := ⟨w.url, e.to_dict, w.timeout_seconds, requestHeaders w e⟩
       match resp attempt with
       | .response s =>
         let d := { d with status_code := some s }
         if 200 ≤ s ∧ s < 300 then
           ⟨d, true, [call], []⟩
         else if 500 ≤ s ∧ attempt < w.retry_count - 1 then
           let rest := deliverGo w e resp d (attempt + 1) fuel
           ⟨rest.delivery, rest.success, call :: rest.calls, 2 ^ attempt :: rest.delays⟩
         else
           ⟨{ d with error := some ("HTTP " ++ toString s) }, false, [call], []⟩
       | .exception msg =>
         let d := { d with error := some msg }
         if attempt < w.retry_count - 1 then
           let rest := deliverGo w e resp d (attempt + 1) fuel
           ⟨rest.delivery, rest.success, call :: rest.calls, 2 ^ attempt :: rest.delays⟩
         else
           ⟨d, false, [call], []⟩) := rfl

/-- The loop never touches the identity fields nor the `next_retry` /
`completed_at` stamps of the delivery record. -/
theorem deliverGo_preserves (w : Webhook) (e : WebhookEvent) (resp : Nat → AttemptResult) :
    ∀ fuel attempt d,
      (deliverGo w e resp d attempt fuel).delivery.webhook_id = d.webhook_id ∧
      (deliverGo w e resp d attempt fuel).delivery.event_id = d.event_id ∧
      (deliverGo w e resp d attempt fuel).delivery.id = d.id ∧
      (deliverGo w e resp d attempt fuel).delivery.next_retry = d.next_retry ∧
      (deliverGo w e resp d attempt fuel).delivery.completed_at = d.completed_at
  | 0, _, _ => ⟨rfl, rfl, rfl, rfl, rfl⟩
  | fuel + 1, attempt, d => by
    rw [deliverGo_succ]
    cases resp attempt with
    | response s =>
      dsimp only
      split_ifs with h1 h2
      · exact ⟨rfl, rfl, rfl, rfl, rfl⟩
      · exact deliverGo_preserves w e resp fuel (attempt + 1) _
      · exact ⟨rfl, rfl, rfl, rfl, rfl⟩
    | exception msg =>
      dsimp only
      split_ifs with h1
      · exact deliverGo_preserves w e resp fuel (attempt + 1) _
      · exact ⟨rfl, rfl, rfl, rfl, rfl⟩

/-- The attempt counter never exceeds the larger of its initial value and
`attempt + fuel` (the loop bound). -/
theorem deliverGo_attempts_le (w : Webhook) (e : WebhookEvent) (resp : Nat → AttemptResult) :
    ∀ fuel attempt d,
      (deliverGo w e resp d attempt fuel).delivery.attempts ≤ max d.attempts (attempt + fuel)
  | 0, _, d => le_max_left _ _
  | fuel + 1, attempt, d => by
    rw [deliverGo_succ]
    cases resp attempt with
    | response s =>
      dsimp only
      split_ifs with h1 h2
      · dsimp only
        exact le_trans (by omega) (le_max_right _ _)
      · refine le_trans (deliverGo_attempts_le w e resp fuel (attempt + 1) _) ?_
        refine max_le ?_ (le_trans (by omega) (le_max_right _ _))
        dsimp only
        exact le_trans (by omega) (le_max_right _ _)
      · dsimp only
        exact le_trans (by omega) (le_max_right _ _)
    | exception msg =>
      dsimp only
      split_ifs with h1
      · refine le_trans (deliverGo_attempts_le w e resp fuel (attempt + 1) _) ?_
        refine max_le ?_ (le_trans (by omega) (le_max_right _ _))
        dsimp only
        exact le_trans (by omega) (le_max_right _ _)
      · dsimp only
        exact le_trans (by omega) (le_max_right _ _)

/-- As soon as one loop iteration runs (or the counter started positive), the
attempt counter is positive. -/
theorem deliverGo_attempts_pos (w : Webhook) (e : WebhookEvent) (resp : Nat → AttemptResult) :
    ∀ fuel attempt d, 1 ≤ d.attempts ∨ 1 ≤ fuel →
      1 ≤ (deliverGo w e resp d attempt fuel).delivery.attempts
  | 0, _, d, h => by
    rw [deliverGo_zero]
    rcases h with h | h
    · exact h
    · omega
  | fuel + 1, attempt, d, _ => by
    rw [deliverGo_succ]
    cases resp attempt with
    | response s =>
      dsimp only
      split_ifs with h1 h2
      · dsimp only
        omega
      · exact deliverGo_attempts_pos w e resp fuel (attempt + 1) _
          (Or.inl (show (1 : Nat) ≤ attempt + 1 by omega))
      · dsimp only
        omega
    | exception msg =>
      dsimp only
      split_ifs with h1
      · exact deliverGo_attempts_pos w e resp fuel (attempt + 1) _
          (Or.inl (show (1 : Nat) ≤ attempt + 1 by omega))
      · dsimp only
        omega

/-- When the loop is entered with the real budget (`attempt + fuel =
retry_count`, at least one iteration) and returns `False`, it has recorded an
error. -/
theorem deliverGo_fail_error (w : Webhook) (e : WebhookEvent) (resp : Nat → AttemptResult) :
    ∀ fuel attempt d, attempt + fuel = w.retry_count → 1 ≤ fuel →
      (deliverGo w e resp d attempt fuel).success = false →
      ((deliverGo w e resp d attempt fuel).delivery.error).isSome = true
  | 0, _, _, _, hfuel, _ => by omega
  | fuel + 1, attempt, d, hsum, _, hfail => by
    rw [deliverGo_succ] at hfail ⊢
    cases hr : resp attempt with
    | response s =>
      rw [hr] at hfail
      dsimp only at hfail ⊢
      by_cases h1 : 200 ≤ s ∧ s < 300
      · rw [if_pos h1] at hfail
        exact Bool.noConfusion hfail
      · by_cases h2 : 500 ≤ s ∧ attempt < w.retry_count - 1
        · rw [if_neg h1, if_pos h2] at hfail ⊢
          dsimp only at hfail ⊢
          exact deliverGo_fail_error w e resp fuel (attempt + 1) _ (by omega) (by omega) hfail
        · rw [if_neg h1, if_neg h2]
          rfl
    | exception msg =>
      rw [hr] at hfail
      dsimp only at hfail ⊢
      by_cases h1 : attempt < w.retry_count - 1
      · rw [if_pos h1] at hfail ⊢
        dsimp only at hfail ⊢
        exact deliverGo_fail_error w e resp fuel (attempt + 1) _ (by omega) (by omega) hfail
      · rw [if_neg h1]
        rfl

/-- Every outbound call performed by the loop is the same POST: the event's
serialized dict to `webhook.url` with `webhook.timeout_seconds` and the four
fixed headers. -/
theorem deliverGo_calls_mem (w : Webhook) (e : WebhookEvent) (resp : Nat → AttemptResult) :
    ∀ fuel attempt d c, c ∈ (deliverGo w e resp d attempt fuel).calls →
      c = ⟨w.url, e.to_dict, w.timeout_seconds, requestHeaders w e⟩
  | 0, _, _, c, hc => by
    rw [deliverGo_zero] at hc
    exact absurd hc (List.not_mem_nil c)
  | fuel + 1, attempt, d, c, hc => by
    rw [deliverGo_succ] at hc
    cases hr : resp attempt with
    | response s =>
      rw [hr] at hc
      dsimp only at hc
      by_cases h1 : 200 ≤ s ∧ s < 300
      · rw [if_pos h1] at hc
        dsimp only at hc
        simpa using hc
      · by_cases h2 : 500 ≤ s ∧ attempt < w.retry_count - 1
        · rw [if_neg h1, if_pos h2] at hc
          dsimp only at hc
          rcases List.mem_cons.mp hc with h | h
          · exact h
          · exact deliverGo_calls_mem w e resp fuel (attempt + 1) _ c h
        · rw [if_neg h1, if_neg h2] at hc
          dsimp only at hc
          simpa using hc
    | exception msg =>
      rw [hr] at hc
      dsimp only at hc
      by_cases h1 : attempt < w.retry_count - 1
      · rw [if_pos h1] at hc
        dsimp only at hc
        rcases List.mem_cons.mp hc with h | h
        · exact h
        · exact deliverGo_calls_mem w e resp fuel (attempt + 1) _ c h
      · rw [if_neg h1] at hc
        dsimp only at hc
        simpa using hc

/-- Each loop iteration performs an outbound call, so with at least one
iteration available at least one call goes out. -/
theorem deliverGo_calls_pos (w : Webhook) (e : WebhookEvent) (resp : Nat → AttemptResult) :
    ∀ fuel attempt d, 1 ≤ fuel → 1 ≤ (deliverGo w e resp d attempt fuel).calls.length
  | 0, _, _, hfuel => by omega
  | fuel + 1, attempt, d, _ => by
    rw [deliverGo_succ]
    cases resp attempt with
    | response s =>
      dsimp only
      split_ifs with h1 h2 <;> simp
    | exception msg =>
      dsimp only
      split_ifs with h1 <;> simp

theorem backoffDelays_length : ∀ a r, (backoffDelays a r).length = r
  | _, 0 => rfl
  | a, r + 1 => by
    rw [backoffDelays, List.length_cons, backoffDelays_length (a + 1) r]

theorem backoffDelays_chain : ∀ r a, List.Chain' (· < ·) (backoffDelays a r)
  | 0, _ => List.chain'_nil
  | 1, a => List.chain'_singleton _
  | r + 2, a => by
    rw [show backoffDelays a (r + 2) = 2 ^ a :: 2 ^ (a + 1) :: backoffDelays (a + 2) r from rfl]
    refine List.chain'_cons.mpr ⟨Nat.pow_lt_pow_succ (by norm_num), ?_⟩
    exact backoffDelays_chain (r + 1) (a + 1)

/-- Against an endpoint that answers every attempt with a 5xx status, the
loop uses its whole budget: `fuel` calls, attempts counter `retry_count`,
returns `False`, records `HTTP <status>` of the final attempt, and sleeps
the exponential back-off schedule between attempts. -/
theorem deliverGo_all5 (w : Webhook) (e : WebhookEvent) (resp : Nat → AttemptResult)
    (h5 : ∀ i, ∃ s : Nat, resp i = .response s ∧ 500 ≤ s) :
    ∀ fuel attempt d, attempt + fuel = w.retry_count → 1 ≤ fuel →
      (deliverGo w e resp d attempt fuel).delivery.attempts = w.retry_count ∧
      (deliverGo w e resp d attempt fuel).success = false ∧
      (∃ s : Nat, 500 ≤ s ∧
        (deliverGo w e resp d attempt fuel).delivery.error = some ("HTTP " ++ toString s) ∧
        (deliverGo w e resp d attempt fuel).delivery.status_code = some s) ∧
      (deliverGo w e resp d attempt fuel).delays = backoffDelays attempt (fuel - 1) ∧
      (deliverGo w e resp d attempt fuel).calls.length = fuel
  | 0, _, _, _, hfuel => by omega
  | 1, attempt, d, hsum, _ => by
    obtain ⟨s, hr, hs⟩ := h5 attempt
    rw [deliverGo_succ, hr]
    dsimp only
    rw [if_neg (by omega : ¬(200 ≤ s ∧ s < 300)),
        if_neg (by omega : ¬(500 ≤ s ∧ attempt < w.retry_count - 1))]
    exact ⟨by dsimp only; omega, rfl, ⟨s, hs, rfl, rfl⟩, rfl, rfl⟩
  | fuel + 2, attempt, d, hsum, _ => by
    obtain ⟨s, hr, hs⟩ := h5 attempt
    rw [deliverGo_succ, hr]
    dsimp only
    rw [if_neg (by omega : ¬(200 ≤ s ∧ s < 300)),
        if_pos (⟨hs, by omega⟩ : 500 ≤ s ∧ attempt < w.retry_count - 1)]
    dsimp only
    have ih := deliverGo_all5 w e resp h5 (fuel + 1) (attempt + 1)
      { d with attempts := attempt + 1, status_code := some s } (by omega) (by omega)
    refine ⟨ih.1, ih.2.1, ih.2.2.1, ?_, ?_⟩
    · rw [ih.2.2.2.1]
      rfl
    · rw [List.length_cons, ih.2.2.2.2]

/-- What `trigger_event` appends for a single matching webhook: its id and
the event's id are stamped on the record, exactly one of
`completed_at` / `next_retry` is set (by success / failure), a failed
delivery that made at least one attempt carries an error, and the attempt
counter respects the webhook's `retry_count`. -/
theorem deliverOne_spec (e : WebhookEvent) (resp : String → Nat → AttemptResult)
    (now : Nat) (w : Webhook) (d' : WebhookDelivery)
    (h : deliverOne e resp now w = some d') :
    d'.webhook_id = w.id ∧ d'.event_id = e.id ∧
      ((d'.completed_at = some now ∧ d'.next_retry = none) ∨
        (d'.completed_at = none ∧ d'.next_retry = some (now + 300))) ∧
      (d'.completed_at = none → 1 ≤ d'.attempts → d'.error.isSome = true) ∧
      d'.attempts ≤ w.retry_count := by
  rw [deliverOne] at h
  by_cases hc : w.active = true ∧ e.type ∈ w.event_types
  · rw [if_pos hc] at h
    unfold deliverWebhook at h
    dsimp only at h
    have hpres := deliverGo_preserves w e (resp w.id) w.retry_count 0
      { webhook_id := w.id, event_id := e.id }
    have hatt := deliverGo_attempts_le w e (resp w.id) w.retry_count 0
      { webhook_id := w.id, event_id := e.id }
    split at h
    · rename_i hs
      rw [← Option.some.inj h]
      refine ⟨hpres.1, hpres.2.1, Or.inl ⟨rfl, hpres.2.2.2.1⟩, ?_, ?_⟩
      · intro hco _
        exact Option.noConfusion hco
      · simpa using hatt
    · rename_i hs
      rw [← Option.some.inj h]
      refine ⟨hpres.1, hpres.2.1, Or.inr ⟨hpres.2.2.2.2, rfl⟩, ?_, ?_⟩
      · intro _ hat
        have hrc : 1 ≤ w.retry_count := by
          by_contra hrc
          have h0 : w.retry_count = 0 := by omega
          rw [h0, deliverGo_zero] at hat
          simp at hat
        exact deliverGo_fail_error w e (resp w.id) w.retry_count 0 _ (by omega) hrc
          (by simpa using hs)
      · simpa using hatt
  · rw [if_neg hc] at h
    exact absurd h (by simp)

/-- The `trigger_event` loop produces exactly one record per matching
webhook, in registration order, stamped with that webhook's id. -/
theorem triggerMap (e : WebhookEvent) (resp : String → Nat → AttemptResult) (now : Nat) :
    ∀ ws : List Webhook,
      ((ws.filterMap (deliverOne e resp now)).map (fun d => d.webhook_id)) =
        ((ws.filter (fun w => decide (w.active = true ∧ e.type ∈ w.event_types))).map
          (fun w => w.id))
  | [] => rfl
  | w :: ws => by
    by_cases hc : w.active = true ∧ e.type ∈ w.event_types
    · have hsome : ∃ d', deliverOne e resp now w = some d' := by
        rw [deliverOne, if_pos hc]
        exact ⟨_, rfl⟩
      obtain ⟨d', hd⟩ := hsome
      rw [List.filterMap_cons_some hd, List.filter_cons_of_pos (by simpa using hc),
        List.map_cons, List.map_cons, (deliverOne_spec e resp now w d' hd).1,
        triggerMap e resp now ws]
    · rw [List.filterMap_cons_none (by rw [deliverOne, if_neg hc]),
        List.filter_cons_of_neg (by simpa using hc), triggerMap e resp now ws]

theorem lookupKey_map_replace (k : String) (v : Webhook) :
    ∀ l : List (String × Webhook), l.any (fun p => p.1 = k) = true →
      lookupKey (l.map (fun p => if p.1 = k then (k, v) else p)) k = some v
  | [], h => by simp at h
  | p :: l, h => by
    by_cases hp : p.1 = k
    · rw [List.map_cons, if_pos hp, lookupKey, if_pos rfl]
    · have h' : l.any (fun p => p.1 = k) = true := by
        simp only [List.any_cons, Bool.or_eq_true, decide_eq_true_eq] at h
        rcases h with h | h
        · exact absurd h hp
        · exact h
      rw [List.map_cons, if_neg hp, lookupKey, if_neg hp]
      exact lookupKey_map_replace k v l h'

theorem lookupKey_append_fresh (k : String) (v : Webhook) :
    ∀ l : List (String × Webhook), l.any (fun p => p.1 = k) = false →
      lookupKey (l ++ [(k, v)]) k = some v
  | [], _ => by rw [List.nil_append, lookupKey, if_pos rfl]
  | p :: l, h => by
    simp only [List.any_cons, Bool.or_eq_false_iff, decide_eq_false_iff_not] at h
    rw [List.cons_append, lookupKey, if_neg h.1]
    exact lookupKey_append_fresh k v l (by simpa using h.2)

/-- Python-dict assignment then lookup: the stored value is found. -/
theorem dictInsert_lookupKey (l : List (String × Webhook)) (k : String) (v : Webhook) :
    lookupKey (dictInsert l k v) k = some v := by
  rw [dictInsert]
  split_ifs with h
  · exact lookupKey_map_replace k v l h
  · exact lookupKey_append_fresh k v l (by simp only [Bool.not_eq_true] at h; exact h)

/-- Provenance of the recorded error: it was already there, or it is the
message of an exception raised by the HTTP layer, or it is the `"HTTP <n>"`
string built from a response status.  In particular the loop itself never
fabricates any other error text. -/
theorem deliverGo_error_prov (w : Webhook) (e : WebhookEvent) (resp : Nat → AttemptResult) :
    ∀ fuel attempt d m, (deliverGo w e resp d attempt fuel).delivery.error = some m →
      d.error = some m ∨ (∃ i, resp i = .exception m) ∨ (∃ s : Nat, m = "HTTP " ++ toString s)
  | 0, _, d, m, h => by
    rw [deliverGo_zero] at h
    exact Or.inl h
  | fuel + 1, attempt, d, m, h => by
    rw [deliverGo_succ] at h
    cases hr : resp attempt with
    | response s =>
      rw [hr] at h
      dsimp only at h
      by_cases h1 : 200 ≤ s ∧ s < 300
      · rw [if_pos h1] at h
        dsimp only at h
        exact Or.inl h
      · by_cases h2 : 500 ≤ s ∧ attempt < w.retry_count - 1
        · rw [if_neg h1, if_pos h2] at h
          dsimp only at h
          rcases deliverGo_error_prov w e resp fuel (attempt + 1) _ m h with h' | h' | h'
          · exact Or.inl h'
          · exact Or.inr (Or.inl h')
          · exact Or.inr (Or.inr h')
        · rw [if_neg h1, if_neg h2] at h
          dsimp only at h
          exact Or.inr (Or.inr ⟨s, (Option.some.inj h).symm⟩)
    | exception msg =>
      rw [hr] at h
      dsimp only at h
      by_cases h1 : attempt < w.retry_count - 1
      · rw [if_pos h1] at h
        dsimp only at h
        rcases deliverGo_error_prov w e resp fuel (attempt + 1) _ m h with h' | h' | h'
        · refine Or.inr (Or.inl ⟨attempt, ?_⟩)
          rw [hr, Option.some.inj h']
        · exact Or.inr (Or.inl h')
        · exact Or.inr (Or.inr h')
      · rw [if_neg h1] at h
        dsimp only at h
        refine Or.inr (Or.inl ⟨attempt, ?_⟩)
        rw [hr, Option.some.inj h]

/-! ## String fact used for the breaker-error claims -/

/-- The delivery loop's `"HTTP <n>"` error strings are never the spec's
`"circuit open"` message. -/
theorem circuit_open_ne_http (s : Nat) : ¬ ("circuit open" = "HTTP " ++ toString s) := by
  intro h
  have h1 := congrArg String.data h
  rw [String.data_append] at h1
  have e1 : "HTTP ".data = 'H' :: 'T' :: 'T' :: 'P' :: ' ' :: [] := rfl
  have e2 : "circuit open".data = 'c' :: "ircuit open".data := rfl
  rw [e1, e2, List.cons_append] at h1
  exact absurd (List.cons.injEq _ _ _ _ ▸ h1).1 (by decide)

/-! ## Lemmas about the rate limiter -/

theorem isAllowed_drain (N P : Nat) (t : ℚ) (m : Nat) (hm : m ≤ N) (h1 : 1 ≤ m) :
    RateLimiter.isAllowed ⟨N, P, (m : ℚ), t⟩ t = (⟨N, P, ((m - 1 : Nat) : ℚ), t⟩, true) := by
  unfold RateLimiter.isAllowed RateLimiter.refill
  dsimp only
  rw [sub_self, zero_div, zero_mul, add_zero,
    min_eq_right (by exact_mod_cast hm : (m : ℚ) ≤ (N : ℚ))]
  rw [if_pos (by exact_mod_cast h1 : (1 : ℚ) ≤ (m : ℚ))]
  rw [Nat.cast_sub h1]
  norm_num

theorem isAllowed_zero_tokens (N P : Nat) (t : ℚ) :
    RateLimiter.isAllowed ⟨N, P, (0 : ℚ), t⟩ t = (⟨N, P, (0 : ℚ), t⟩, false) := by
  unfold RateLimiter.isAllowed RateLimiter.refill
  dsimp only
  rw [sub_self, zero_div, zero_mul, add_zero,
    min_eq_right (by positivity : (0 : ℚ) ≤ (N : ℚ))]
  rw [if_neg (by norm_num)]

/-- Waiting one full period on an empty bucket refills it to capacity, and
the next call takes one token. -/
theorem isAllowed_refill_full (N P : Nat) (t : ℚ) (hP : 0 < P) (h1 : 1 ≤ N) :
    RateLimiter.isAllowed ⟨N, P, (0 : ℚ), t⟩ (t + P) =
      (⟨N, P, ((N - 1 : Nat) : ℚ), t + P⟩, true) := by
  unfold RateLimiter.isAllowed RateLimiter.refill
  dsimp only
  rw [show t + (P : ℚ) - t = (P : ℚ) by ring]
  rw [div_self (by exact_mod_cast hP.ne' : (P : ℚ) ≠ 0), one_mul, zero_add, min_self]
  rw [if_pos (by exact_mod_cast h1 : (1 : ℚ) ≤ (N : ℚ))]
  rw [Nat.cast_sub h1]
  norm_num

/-- One `is_allowed` step keeps the token count within `[0, rate]` whenever
time moves forward. -/
theorem isAllowed_bounds (l : RateLimiter) (now : ℚ)
    (h0 : 0 ≤ l.tokens) (hlu : l.last_update ≤ now) :
    0 ≤ (l.isAllowed now).1.tokens ∧ (l.isAllowed now).1.tokens ≤ ((l.isAllowed now).1.rate : ℚ) ∧
      (l.isAllowed now).1.rate = l.rate := by
  unfold RateLimiter.isAllowed RateLimiter.refill
  dsimp only
  have hadd : 0 ≤ (now - l.last_update) / (l.period : ℚ) * (l.rate : ℚ) := by
    apply mul_nonneg
    · apply div_nonneg
      · linarith
      · positivity
    · positivity
  have hmin0 : 0 ≤ min (l.rate : ℚ) (l.tokens + (now - l.last_update) / (l.period : ℚ) * (l.rate : ℚ)) :=
    le_min (by positivity) (by linarith)
  have hminr : min (l.rate : ℚ) (l.tokens + (now - l.last_update) / (l.period : ℚ) * (l.rate : ℚ)) ≤
      (l.rate : ℚ) := min_le_left _ _
  split_ifs with h
  · exact ⟨by dsimp only; linarith, by dsimp only; linarith, rfl⟩
  · exact ⟨hmin0, hminr, rfl⟩

theorem run_zero (l : RateLimiter) (now : ℚ) : l.run now 0 = (l, []) := rfl

/-- `k` back-to-back calls at the same instant on a bucket holding `m ≤ N`
whole tokens: all succeed and `k` tokens are consumed. -/
theorem run_drain (N P : Nat) (t : ℚ) :
    ∀ k m, k ≤ m → m ≤ N →
      RateLimiter.run ⟨N, P, (m : ℚ), t⟩ t k =
        (⟨N, P, ((m - k : Nat) : ℚ), t⟩, List.replicate k true)
  | 0, m, _, _ => rfl
  | k + 1, m, hk, hm => by
    rw [RateLimiter.run, isAllowed_drain N P t m hm (by omega)]
    dsimp only
    rw [run_drain N P t k (m - 1) (by omega) (by omega)]
    dsimp only
    rw [show m - 1 - k = m - (k + 1) by omega]
    rfl

/-! ## Lemmas about the circuit breaker -/

/-- A closed breaker lets the call through and records its outcome. -/
theorem call_closed (b : CircuitBreaker) (now : ℚ) (hs : b.state = "closed") :
    b.call now false = (b.onFailure now, .failed) ∧
      b.call now true = (b.onSuccess, .succeeded) := by
  unfold CircuitBreaker.call
  rw [if_neg (by rw [hs]; decide)]
  exact ⟨rfl, rfl⟩

/-- Recording a failure below the threshold merely counts it. -/
theorem onFailure_below (b : CircuitBreaker) (now : ℚ)
    (h : b.failure_count + 1 < b.failure_threshold) :
    b.onFailure now =
      { b with failure_count := b.failure_count + 1, last_failure_time := some now } := by
  unfold CircuitBreaker.onFailure
  dsimp only
  rw [if_neg (by omega)]

/-- Recording the failure that reaches the threshold opens the breaker. -/
theorem onFailure_reach (b : CircuitBreaker) (now : ℚ)
    (h : b.failure_threshold ≤ b.failure_count + 1) :
    b.onFailure now =
      { b with failure_count := b.failure_count + 1, last_failure_time := some now,
               state := "open" } := by
  unfold CircuitBreaker.onFailure
  dsimp only
  rw [if_pos (by omega)]

/-- An open breaker inside its cool-down denies every call, changing
nothing. -/
theorem call_open_denied (b : CircuitBreaker) (now tf : ℚ) (f : Bool)
    (hs : b.state = "open") (hl : b.last_failure_time = some tf)
    (hcool : now - tf < b.recovery_timeout) :
    b.call now f = (b, .denied) := by
  simp [CircuitBreaker.call, CircuitBreaker.shouldAttemptReset, hs, hl, not_le.mpr hcool]

/-- Once the cool-down has elapsed, the next call is admitted as the
half-open probe; success closes the breaker and resets the count. -/
theorem call_open_probe_success (b : CircuitBreaker) (now tf : ℚ)
    (hs : b.state = "open") (hl : b.last_failure_time = some tf)
    (hcool : b.recovery_timeout ≤ now - tf) :
    b.call now true = ({ b with failure_count := 0, state := "closed" }, .succeeded) := by
  simp [CircuitBreaker.call, CircuitBreaker.shouldAttemptReset, CircuitBreaker.onSuccess,
    hs, hl, hcool]

/-- A failed probe re-opens the breaker (the failure count was already at or
above the threshold). -/
theorem call_open_probe_failure (b : CircuitBreaker) (now tf : ℚ)
    (hs : b.state = "open") (hl : b.last_failure_time = some tf)
    (hcool : b.recovery_timeout ≤ now - tf)
    (hth : b.failure_threshold ≤ b.failure_count) :
    b.call now false =
      ({ b with failure_count := b.failure_count + 1, last_failure_time := some now,
                state := "open" }, .failed) := by
  simp [CircuitBreaker.call, CircuitBreaker.shouldAttemptReset, CircuitBreaker.onFailure,
    hs, hl, hcool, Nat.le_succ_of_le hth]

theorem failRun_append (t : ℚ) :
    ∀ (ts : List ℚ) (b : CircuitBreaker),
      failRun b (ts ++ [t]) = ((failRun b ts).call t false).1
  | [], _ => rfl
  | t' :: ts, b => by
    rw [List.cons_append, failRun, failRun]
    exact failRun_append t ts _

/-- While the accumulated failures stay below the threshold, a run of failing
calls keeps the breaker closed and just counts them. -/
theorem failRun_below :
    ∀ (ts : List ℚ) (b : CircuitBreaker), b.state = "closed" →
      b.failure_count + ts.length < b.failure_threshold →
      (failRun b ts).state = "closed" ∧
        (failRun b ts).failure_count = b.failure_count + ts.length ∧
        (failRun b ts).failure_threshold = b.failure_threshold ∧
        (failRun b ts).recovery_timeout = b.recovery_timeout ∧
        (failRun b ts).name = b.name
  | [], b, hs, _ => ⟨hs, by simp [failRun], rfl, rfl, rfl⟩
  | t :: ts, b, hs, hlt => by
    rw [failRun, (call_closed b t hs).1]
    dsimp only
    rw [onFailure_below b t (by simp at hlt; omega)]
    have ih := failRun_below ts
      { b with failure_count := b.failure_count + 1, last_failure_time := some t }
      hs (by dsimp only; simp at hlt; omega)
    refine ⟨ih.1, ?_, ?_, ?_, ?_⟩
    · rw [ih.2.1]
      dsimp only
      simp [List.length_cons]
      omega
    · rw [ih.2.2.1]
    · rw [ih.2.2.2.1]
    · rw [ih.2.2.2.2]

/-- Draining a bucket holding `m` whole tokens with `m + 1` immediate calls:
`m` successes then one failure, ending empty. -/
theorem run_exhaust (N P : Nat) (t : ℚ) :
    ∀ m, m ≤ N →
      RateLimiter.run ⟨N, P, (m : ℚ), t⟩ t (m + 1) =
        (⟨N, P, (0 : ℚ), t⟩, List.replicate m true ++ [false])
  | 0, _ => by
    rw [show ((0 : Nat) : ℚ) = (0 : ℚ) by norm_num, RateLimiter.run, isAllowed_zero_tokens]
    rfl
  | m + 1, hm => by
    rw [RateLimiter.run, isAllowed_drain N P t (m + 1) hm (by omega)]
    dsimp only
    rw [show (m + 1) - 1 = m from by omega, run_exhaust N P t m (by omega)]
    rfl

/-! ## Claim theorems -/

/-- C1: for every event, `trigger_event` creates and returns exactly one
delivery record per currently-registered active subscription whose
`event_types` contain the event's type — one each, stamped with the
subscription's id, in registration order — and none for any other
subscription; the records are also appended to the manager's delivery log. -/
theorem C1_trigger_one_delivery_per_matching :
    ∀ (m : WebhookManager) (e : WebhookEvent) (resp : String → Nat → AttemptResult) (now : Nat),
      (triggerEvent m e resp now).2.map (fun d => d.webhook_id) =
        (matchingWebhooks m e.type).map (fun w => w.id) ∧
      (triggerEvent m e resp now).1.deliveries =
        m.deliveries ++ (triggerEvent m e resp now).2 :=
  fun m e resp now => ⟨triggerMap e resp now (m.webhooks.map Prod.snd), rfl⟩

/-- C3 counterexample: `"not a url"` is not a well-formed absolute URL, yet
`register_webhook` raises nothing and synchronously creates and stores an
active subscription for it (the claimed `InvalidTargetError` does not
exist in the code). -/
theorem C3_counterexample :
    specIsAbsoluteUrl "not a url" = false ∧
    (registerWebhook {} "not a url" [.task_completed] none "id1" "sec1" "t0").1.active = true ∧
    (registerWebhook {} "not a url" [.task_completed] none "id1" "sec1" "t0").1.url = "not a url" ∧
    (registerWebhook {} "not a url" [.task_completed] none "id1" "sec1" "t0").2.webhooks =
      [("id1", (registerWebhook {} "not a url" [.task_completed] none "id1" "sec1" "t0").1)] := by
  refine ⟨by decide, rfl, rfl, rfl⟩

/-- C3 (corrected): `register_webhook` performs no validation of
`target_url` whatsoever: for every string it creates a new active
subscription carrying that url and stores it under its fresh id in the
registry. -/
theorem C3_register_never_validates :
    ∀ (m : WebhookManager) (url : String) (ets : List EventType) (secret : Option String)
      (fid dsec cr : String),
      (registerWebhook m url ets secret fid dsec cr).1.url = url ∧
      (registerWebhook m url ets secret fid dsec cr).1.active = true ∧
      (registerWebhook m url ets secret fid dsec cr).1.id = fid ∧
      lookupKey (registerWebhook m url ets secret fid dsec cr).2.webhooks fid =
        some (registerWebhook m url ets secret fid dsec cr).1 :=
  fun m url ets secret fid dsec cr =>
    ⟨rfl, rfl, rfl, dictInsert_lookupKey m.webhooks fid _⟩

/-- C4 counterexample: a 404 endpoint yields a delivery with one attempt and
`HTTP 404` recorded, but `trigger_event` stamps `next_retry = now + 300` on
it — the record is scheduled for a retry and reported as *pending* (as well
as failed) by `get_delivery_status`, not marked permanently failed. -/
theorem C4_counterexample :
    (triggerEvent exManager exEvent (fun _ _ => .response 404) 1000).2 =
      [{ id := "", webhook_id := "wh1", event_id := "ev1", status_code := some 404,
         error := some "HTTP 404", attempts := 1, next_retry := some 1300,
         completed_at := none }] ∧
    (getDeliveryStatus (triggerEvent exManager exEvent (fun _ _ => .response 404) 1000).1
        "wh1").failed = 1 ∧
    (getDeliveryStatus (triggerEvent exManager exEvent (fun _ _ => .response 404) 1000).1
        "wh1").pending = 1 := by
  refine ⟨by decide, by decide, by decide⟩

/-- C4 (corrected): a first-attempt 4xx response ends the loop after exactly
one attempt and one outbound call, with the status code recorded both in
`status_code` and as the `HTTP <code>` error, no back-off slept and no
further attempt made; `trigger_event` then stamps `next_retry = now + 300`
on the failed record instead of marking it permanently failed (nothing ever
consumes `next_retry`, so no retry is actually performed). -/
theorem C4_4xx_single_attempt :
    ∀ (w : Webhook) (e : WebhookEvent) (resp : Nat → AttemptResult) (d : WebhookDelivery)
      (s : Nat),
      1 ≤ w.retry_count → resp 0 = .response s → 400 ≤ s → s < 500 →
      ((deliverWebhook w e resp d).delivery.attempts = 1 ∧
        (deliverWebhook w e resp d).delivery.status_code = some s ∧
        (deliverWebhook w e resp d).delivery.error = some ("HTTP " ++ toString s) ∧
        (deliverWebhook w e resp d).success = false ∧
        (deliverWebhook w e resp d).calls.length = 1 ∧
        (deliverWebhook w e resp d).delays = []) ∧
      (w.active = true → e.type ∈ w.event_types →
        ∀ (respEnv : String → Nat → AttemptResult) (now : Nat), respEnv w.id = resp →
          deliverOne e respEnv now w =
            some { (deliverWebhook w e resp { webhook_id := w.id, event_id := e.id }).delivery
                    with next_retry := some (now + 300) }) := by
  intro w e resp d s hrc h0 h400 h500
  have key : ∀ d0 : WebhookDelivery,
      (deliverWebhook w e resp d0).delivery.attempts = 1 ∧
      (deliverWebhook w e resp d0).delivery.status_code = some s ∧
      (deliverWebhook w e resp d0).delivery.error = some ("HTTP " ++ toString s) ∧
      (deliverWebhook w e resp d0).success = false ∧
      (deliverWebhook w e resp d0).calls.length = 1 ∧
      (deliverWebhook w e resp d0).delays = [] := by
    intro d0
    obtain ⟨f, hf⟩ : ∃ f, w.retry_count = f + 1 := ⟨w.retry_count - 1, by omega⟩
    unfold deliverWebhook
    rw [hf, deliverGo_succ, h0]
    dsimp only
    rw [if_neg (by omega), if_neg (by omega)]
    exact ⟨rfl, rfl, rfl, rfl, rfl, rfl⟩
  refine ⟨key d, ?_⟩
  intro ha hm respEnv now hre
  rw [deliverOne, if_pos ⟨ha, hm⟩, hre]
  dsimp only
  rw [(key { webhook_id := w.id, event_id := e.id }).2.2.2.1]
  rfl

/-- C4 witness: the corrected 4xx claim instantiated at the concrete 404
scenario. -/
theorem C4_4xx_witness :
    1 ≤ exWebhook.retry_count ∧
    ((deliverWebhook exWebhook exEvent (fun _ => .response 404) exDelivery).delivery.attempts = 1 ∧
      (deliverWebhook exWebhook exEvent (fun _ => .response 404) exDelivery).delivery.status_code =
        some 404 ∧
      (deliverWebhook exWebhook exEvent (fun _ => .response 404) exDelivery).delivery.error =
        some ("HTTP " ++ toString 404) ∧
      (deliverWebhook exWebhook exEvent (fun _ => .response 404) exDelivery).success = false ∧
      (deliverWebhook exWebhook exEvent (fun _ => .response 404) exDelivery).calls.length = 1 ∧
      (deliverWebhook exWebhook exEvent (fun _ => .response 404) exDelivery).delays = []) :=
  ⟨by decide,
    (C4_4xx_single_attempt exWebhook exEvent (fun _ => .response 404) exDelivery 404
      (by decide) rfl (by decide) (by decide)).1⟩

/-- C2 counterexample: take the `CircuitBreaker` for the endpoint with its
failure threshold reached and still inside its cool-down — it is OPEN and
denies calls — yet the delivery loop for a subscription to that same url
performs three outbound HTTP calls and records `HTTP 503`; `"circuit open"`
is never recorded and `completed_at` handling never involves the breaker. -/
theorem C2_counterexample :
    exOpenBreaker.state = "open" ∧
    exOpenBreaker.call 10 true = (exOpenBreaker, .denied) ∧
    exOpenBreaker.name = exWebhook.url ∧
    (deliverWebhook exWebhook exEvent exResp503 exDelivery).calls.length = 3 ∧
    (deliverWebhook exWebhook exEvent exResp503 exDelivery).delivery.error =
      some "HTTP 503" ∧
    ¬ (deliverWebhook exWebhook exEvent exResp503 exDelivery).delivery.error =
      some "circuit open" := by
  refine ⟨rfl, ?_, rfl, by decide, by decide, by decide⟩
  exact call_open_denied exOpenBreaker 10 0 true rfl rfl (by norm_num [exOpenBreaker])

/-- C2 (corrected): the delivery engine never consults any circuit breaker.
Whatever breaker exists for the endpoint and whatever its state — OPEN
included — at least one outbound HTTP call is attempted whenever
`retry_count ≥ 1`, and the engine itself never records `"circuit open"`: if
that string ends up in `error`, it was already in the record or is the
message of a transport exception raised by the HTTP layer. -/
theorem C2_delivery_ignores_breaker :
    ∀ (b : CircuitBreaker) (w : Webhook) (e : WebhookEvent) (resp : Nat → AttemptResult)
      (d : WebhookDelivery),
      b.state = "open" → 1 ≤ w.retry_count →
      1 ≤ (deliverWebhook w e resp d).calls.length ∧
      ((deliverWebhook w e resp d).delivery.error = some "circuit open" →
        d.error = some "circuit open" ∨ ∃ i, resp i = .exception "circuit open") := by
  intro b w e resp d _ hrc
  refine ⟨deliverGo_calls_pos w e resp w.retry_count 0 d hrc, ?_⟩
  intro h
  rcases deliverGo_error_prov w e resp w.retry_count 0 d _ h with h' | h' | h'
  · exact Or.inl h'
  · exact Or.inr h'
  · obtain ⟨n, hn⟩ := h'
    exact absurd hn (circuit_open_ne_http n)

/-- C2 witness: the amended no-breaker claim at the concrete OPEN breaker
and 503 endpoint. -/
theorem C2_breaker_witness :
    exOpenBreaker.state = "open" ∧ 1 ≤ exWebhook.retry_count ∧
    (1 ≤ (deliverWebhook exWebhook exEvent exResp503 exDelivery).calls.length ∧
      ((deliverWebhook exWebhook exEvent exResp503 exDelivery).delivery.error =
          some "circuit open" →
        exDelivery.error = some "circuit open" ∨
          ∃ i, exResp503 i = .exception "circuit open")) :=
  ⟨rfl, by decide,
    C2_delivery_ignores_breaker exOpenBreaker exWebhook exEvent exResp503
      exDelivery rfl (by decide)⟩

/-- C5: against an endpoint answering every attempt with a 5xx status, the
attempt loop retries with strictly increasing inter-attempt delays until
exactly `retry_count` attempts have been made, then ends unsuccessfully with
the final `HTTP <status>` recorded and `completed_at` untouched; and any
record produced by the trigger loop has `attempts ≤ retry_count`. -/
theorem C5_5xx_exhausts_attempts :
    ∀ (w : Webhook) (e : WebhookEvent) (resp : Nat → AttemptResult) (d : WebhookDelivery),
      (∀ i, ∃ s : Nat, resp i = .response s ∧ 500 ≤ s) → 1 ≤ w.retry_count →
      ((deliverWebhook w e resp d).delivery.attempts = w.retry_count ∧
        (deliverWebhook w e resp d).success = false ∧
        (deliverWebhook w e resp d).delivery.completed_at = d.completed_at ∧
        (∃ s : Nat, 500 ≤ s ∧
          (deliverWebhook w e resp d).delivery.error = some ("HTTP " ++ toString s)) ∧
        (deliverWebhook w e resp d).delays.length = w.retry_count - 1 ∧
        List.Chain' (· < ·) (deliverWebhook w e resp d).delays ∧
        (deliverWebhook w e resp d).calls.length = w.retry_count) ∧
      (∀ (resp2 : String → Nat → AttemptResult) (now : Nat) (d2 : WebhookDelivery),
        deliverOne e resp2 now w = some d2 → d2.attempts ≤ w.retry_count) := by
  intro w e resp d h5 hrc
  have hall := deliverGo_all5 w e resp h5 w.retry_count 0 d (by omega) hrc
  refine ⟨⟨hall.1, hall.2.1,
      (deliverGo_preserves w e resp w.retry_count 0 d).2.2.2.2, ?_, ?_, ?_,
      hall.2.2.2.2⟩, ?_⟩
  · obtain ⟨s, hs, herr, _⟩ := hall.2.2.1
    exact ⟨s, hs, herr⟩
  · have hd := hall.2.2.2.1
    rw [show (deliverWebhook w e resp d).delays = (deliverGo w e resp d 0 w.retry_count).delays
        from rfl, hd, backoffDelays_length]
  · have hd := hall.2.2.2.1
    rw [show (deliverWebhook w e resp d).delays = (deliverGo w e resp d 0 w.retry_count).delays
        from rfl, hd]
    exact backoffDelays_chain _ _
  · intro resp2 now d2 hd2
    exact (deliverOne_spec e resp2 now w d2 hd2).2.2.2.2

/-- C5 witness: the 5xx claim at the concrete always-503 endpoint. -/
theorem C5_5xx_witness :
    (∀ i : Nat, ∃ s : Nat, exResp503 i = .response s ∧ 500 ≤ s) ∧
    1 ≤ exWebhook.retry_count ∧
    (deliverWebhook exWebhook exEvent exResp503 exDelivery).delivery.attempts =
      exWebhook.retry_count ∧
    List.Chain' (· < ·) (deliverWebhook exWebhook exEvent exResp503 exDelivery).delays :=
  ⟨fun _ => ⟨503, rfl, by norm_num⟩, by decide,
    ((C5_5xx_exhausts_attempts exWebhook exEvent exResp503 exDelivery
        (fun _ => ⟨503, rfl, by norm_num⟩) (by decide)).1).1,
    ((C5_5xx_exhausts_attempts exWebhook exEvent exResp503 exDelivery
        (fun _ => ⟨503, rfl, by norm_num⟩) (by decide)).1).2.2.2.2.2.1⟩

/-- C6: `trigger_event` is a total function of the event and the HTTP
behaviour — for success, 4xx, 5xx and raised-exception outcomes alike it
returns the list of delivery records (one per matching subscription,
appended to the log), and every failure is captured inside its record:
each record carries `completed_at` (success, `next_retry` unset) or
`next_retry` (failure, `completed_at` unset), and a failed record that made
at least one attempt carries an error message — nothing propagates to the
event producer. -/
theorem C6_trigger_never_raises :
    ∀ (m : WebhookManager) (e : WebhookEvent) (resp : String → Nat → AttemptResult) (now : Nat),
      (triggerEvent m e resp now).2.length = (matchingWebhooks m e.type).length ∧
      (triggerEvent m e resp now).1.deliveries = m.deliveries ++ (triggerEvent m e resp now).2 ∧
      ∀ d ∈ (triggerEvent m e resp now).2,
        ((d.completed_at = some now ∧ d.next_retry = none) ∨
          (d.completed_at = none ∧ d.next_retry = some (now + 300))) ∧
        (d.completed_at = none → 1 ≤ d.attempts → d.error.isSome = true) := by
  intro m e resp now
  refine ⟨?_, rfl, ?_⟩
  · have h := congrArg List.length (triggerMap e resp now (m.webhooks.map Prod.snd))
    rw [List.length_map, List.length_map] at h
    exact h
  · intro d hd
    obtain ⟨w, _, hdw⟩ := List.mem_filterMap.mp hd
    have hspec := deliverOne_spec e resp now w d hdw
    exact ⟨hspec.2.2.1, hspec.2.2.2.1⟩

/-- C6 witness: the flaky-endpoint trigger returns its record with
`completed_at` stamped and `next_retry` unset. -/
theorem C6_trigger_witness :
    (exFlakyDelivery.completed_at = some 1000 ∧ exFlakyDelivery.next_retry = none) ∨
    (exFlakyDelivery.completed_at = none ∧
      exFlakyDelivery.next_retry = some (1000 + 300)) :=
  ((C6_trigger_never_raises exManager exEvent exFlakyResp 1000).2.2
    exFlakyDelivery (by decide)).1

/-- C7: on a fresh bucket of capacity `N` (positive period), `is_allowed`
succeeds on exactly the first `N` zero-elapsed calls and fails on the
`(N+1)`st; after one full `period` with no acquisitions it again succeeds
`N` times; and every step keeps the token count within `[0, capacity]`
whenever time does not run backwards. -/
theorem C7_token_bucket :
    ∀ (N P : Nat) (t : ℚ), 0 < P →
      ((RateLimiter.init N P t).run t (N + 1)).2 = List.replicate N true ++ [false] ∧
      ((((RateLimiter.init N P t).run t (N + 1)).1).run (t + P) N).2 = List.replicate N true ∧
      (∀ (l : RateLimiter) (now : ℚ), 0 ≤ l.tokens → l.last_update ≤ now →
        0 ≤ (l.isAllowed now).1.tokens ∧
          (l.isAllowed now).1.tokens ≤ ((l.isAllowed now).1.rate : ℚ)) := by
  intro N P t hP
  have h1 : (RateLimiter.init N P t).run t (N + 1) =
      (⟨N, P, (0 : ℚ), t⟩, List.replicate N true ++ [false]) :=
    run_exhaust N P t N le_rfl
  refine ⟨?_, ?_, ?_⟩
  · rw [h1]
  · rw [h1]
    dsimp only
    cases N with
    | zero => rfl
    | succ n =>
      rw [RateLimiter.run, isAllowed_refill_full (n + 1) P t hP (by omega)]
      dsimp only
      rw [show (n + 1) - 1 = n from by omega,
        run_drain (n + 1) P (t + P) n n (le_refl n) (by omega)]
      rfl
  · intro l now h0 hlu
    exact ⟨(isAllowed_bounds l now h0 hlu).1, (isAllowed_bounds l now h0 hlu).2.1⟩

/-- C7 witness: the token-bucket claim at capacity 2, period 60 s. -/
theorem C7_token_bucket_witness :
    (0 : Nat) < 60 ∧
    ((RateLimiter.init 2 60 0).run 0 (2 + 1)).2 = List.replicate 2 true ++ [false] ∧
    ((((RateLimiter.init 2 60 0).run 0 (2 + 1)).1).run ((0 : ℚ) + 60) 2).2 =
      List.replicate 2 true :=
  ⟨by norm_num, (C7_token_bucket 2 60 0 (by norm_num)).1,
    (C7_token_bucket 2 60 0 (by norm_num)).2.1⟩

/-- C8: breaker life cycle.  From a fresh closed breaker,
`failure_threshold` consecutive failing calls leave it OPEN with the last
failure's timestamp; while OPEN and inside the cool-down every call is
denied unchanged; the first call after the cool-down is admitted as the
HALF_OPEN probe — a successful probe returns it to CLOSED with the failure
count reset to 0, a failed probe re-opens it. -/
theorem C8_breaker_cycle :
    (∀ (b : CircuitBreaker) (ts : List ℚ) (t : ℚ),
        b.state = "closed" → b.failure_count = 0 → ts.length + 1 = b.failure_threshold →
        (failRun b (ts ++ [t])).state = "open" ∧
        (failRun b (ts ++ [t])).failure_count = b.failure_threshold ∧
        (failRun b (ts ++ [t])).last_failure_time = some t ∧
        (failRun b (ts ++ [t])).recovery_timeout = b.recovery_timeout) ∧
    (∀ (b : CircuitBreaker) (now tf : ℚ) (f : Bool),
        b.state = "open" → b.last_failure_time = some tf → now - tf < b.recovery_timeout →
        b.call now f = (b, .denied)) ∧
    (∀ (b : CircuitBreaker) (now tf : ℚ),
        b.state = "open" → b.last_failure_time = some tf → b.recovery_timeout ≤ now - tf →
        b.call now true = ({ b with failure_count := 0, state := "closed" }, .succeeded)) ∧
    (∀ (b : CircuitBreaker) (now tf : ℚ),
        b.state = "open" → b.last_failure_time = some tf → b.recovery_timeout ≤ now - tf →
        b.failure_threshold ≤ b.failure_count →
        b.call now false =
          ({ b with failure_count := b.failure_count + 1, last_failure_time := some now, state := "open" }, .failed)) := by
  refine ⟨?_, call_open_denied, call_open_probe_success, call_open_probe_failure⟩
  intro b ts t hs hc0 hlen
  rw [failRun_append]
  have hb := failRun_below ts b hs (by omega)
  rw [(call_closed (failRun b ts) t hb.1).1]
  dsimp only
  rw [onFailure_reach (failRun b ts) t (by rw [hb.2.1, hb.2.2.1]; omega)]
  dsimp only
  refine ⟨rfl, ?_, rfl, hb.2.2.2.1⟩
  rw [hb.2.1]
  omega

/-- C8 witness: the breaker cycle at threshold 2, cool-down 60 s: two
failures (times 1 and 2) open it; a call at time 30 is denied; the probe at
time 100 closes it on success or re-opens it on failure. -/
theorem C8_breaker_witness :
    ((failRun ⟨"ep", 2, 60, 0, none, "closed"⟩ ([1] ++ [2])).state = "open" ∧
      (failRun ⟨"ep", 2, 60, 0, none, "closed"⟩ ([1] ++ [2])).failure_count = 2 ∧
      (failRun ⟨"ep", 2, 60, 0, none, "closed"⟩ ([1] ++ [2])).last_failure_time = some 2 ∧
      (failRun ⟨"ep", 2, 60, 0, none, "closed"⟩ ([1] ++ [2])).recovery_timeout = 60) ∧
    CircuitBreaker.call ⟨"ep", 2, 60, 2, some 2, "open"⟩ 30 true =
      (⟨"ep", 2, 60, 2, some 2, "open"⟩, .denied) ∧
    CircuitBreaker.call ⟨"ep", 2, 60, 2, some 2, "open"⟩ 100 true =
      (⟨"ep", 2, 60, 0, some 2, "closed"⟩, .succeeded) ∧
    CircuitBreaker.call ⟨"ep", 2, 60, 2, some 2, "open"⟩ 100 false =
      (⟨"ep", 2, 60, 3, some 100, "open"⟩, .failed) :=
  ⟨C8_breaker_cycle.1 ⟨"ep", 2, 60, 0, none, "closed"⟩ [1] 2 rfl rfl rfl,
    C8_breaker_cycle.2.1 ⟨"ep", 2, 60, 2, some 2, "open"⟩ 30 2 true rfl rfl (by norm_num),
    C8_breaker_cycle.2.2.1 ⟨"ep", 2, 60, 2, some 2, "open"⟩ 100 2 rfl rfl (by norm_num),
    C8_breaker_cycle.2.2.2 ⟨"ep", 2, 60, 2, some 2, "open"⟩ 100 2 rfl rfl (by norm_num)
      (by norm_num)⟩

/-- C9 counterexample: the outbound call for a concrete delivery carries the
headers X-Webhook-ID / X-Event-ID / X-Event-Type / X-Secret — the shared
secret is sent raw in X-Secret instead of being used for a signature, and no
X-Signature header exists at all. -/
theorem C9_counterexample :
    (deliverWebhook exWebhook exEvent (fun _ => .response 200) exDelivery).calls =
      [⟨"https://example.com/hook", ⟨"ev1", "task.completed", "T", [], []⟩, 30,
        [("X-Webhook-ID", "wh1"), ("X-Event-ID", "ev1"),
         ("X-Event-Type", "task.completed"), ("X-Secret", "s")]⟩] ∧
    lookupKey (requestHeaders exWebhook exEvent) "X-Signature" = none ∧
    lookupKey (requestHeaders exWebhook exEvent) "X-Secret" = some "s" :=
  ⟨by decide, by decide, by decide⟩

/-- C9 (corrected): every outbound attempt POSTs the event's serialized dict
to the subscription's `url` with its `timeout_seconds` and exactly the four
headers X-Webhook-ID, X-Event-ID, X-Event-Type and X-Secret (the raw shared
secret); no X-Signature header — and hence no HMAC of the body — is ever
sent. -/
theorem C9_outbound_wire :
    ∀ (w : Webhook) (e : WebhookEvent) (resp : Nat → AttemptResult) (d : WebhookDelivery)
      (c : OutboundCall), c ∈ (deliverWebhook w e resp d).calls →
      c.url = w.url ∧ c.body = e.to_dict ∧ c.timeout = w.timeout_seconds ∧
      c.headers = [("X-Webhook-ID", w.id), ("X-Event-ID", e.id),
        ("X-Event-Type", e.type.value), ("X-Secret", w.secret)] ∧
      lookupKey c.headers "X-Signature" = none := by
  intro w e resp d c hc
  have h := deliverGo_calls_mem w e resp w.retry_count 0 d c hc
  subst h
  refine ⟨rfl, rfl, rfl, rfl, ?_⟩
  simp [requestHeaders, lookupKey]

/-- C9 witness: the corrected wire claim at the concrete 503 delivery and
its (only kind of) outbound call. -/
theorem C9_outbound_witness :
    (⟨"https://example.com/hook", ⟨"ev1", "task.completed", "T", [], []⟩, 30,
        [("X-Webhook-ID", "wh1"), ("X-Event-ID", "ev1"),
         ("X-Event-Type", "task.completed"), ("X-Secret", "s")]⟩ : OutboundCall) ∈
      (deliverWebhook exWebhook exEvent exResp503 exDelivery).calls ∧
    lookupKey ((⟨"https://example.com/hook", ⟨"ev1", "task.completed", "T", [], []⟩, 30,
        [("X-Webhook-ID", "wh1"), ("X-Event-ID", "ev1"),
         ("X-Event-Type", "task.completed"), ("X-Secret", "s")]⟩ : OutboundCall).headers)
      "X-Signature" = none :=
  ⟨by decide,
    (C9_outbound_wire exWebhook exEvent exResp503 exDelivery _ (by decide)).2.2.2.2⟩

/-- C10: with the flaky endpoint (first attempt raises, second returns 200)
the single delivery record keeps the first attempt's error message although
it completed successfully — `error` is never cleared on success — so
`get_delivery_status` counts it both as successful and as failed, and
`successful + failed + pending` exceeds `total_deliveries`. -/
theorem C10_status_counts_overlap :
    (triggerEvent exManager exEvent exFlakyResp 1000).2 = [exFlakyDelivery] ∧
    exFlakyDelivery.error.isSome = true ∧
    exFlakyDelivery.completed_at.isSome = true ∧
    getDeliveryStatus (triggerEvent exManager exEvent exFlakyResp 1000).1 "wh1" =
      ⟨"wh1", 1, 1, 1, 0, some 1000⟩ ∧
    (getDeliveryStatus (triggerEvent exManager exEvent exFlakyResp 1000).1
        "wh1").total_deliveries <
      (getDeliveryStatus (triggerEvent exManager exEvent exFlakyResp 1000).1 "wh1").successful +
        (getDeliveryStatus (triggerEvent exManager exEvent exFlakyResp 1000).1 "wh1").failed +
        (getDeliveryStatus (triggerEvent exManager exEvent exFlakyResp 1000).1 "wh1").pending :=
  ⟨by decide, rfl, rfl, by decide, by decide⟩

end AgentAI
